import Mathlib

/-!
Verification of the authentication / authorization / audit-logging core of the
rssb-portal volunteer-record application.

The definitions below are a shallow embedding of the backend source:
* `checkAuthHeader`, `resolveUser`, `authenticateToken` embed the JWT
  middleware (`authenticateToken` in the auth middleware file);
* `jwtVerify` models the external `jsonwebtoken` library's `verify` (signature
  checked first, then expiry, as documented and relied on by the spec);
* `requireRole`, `requireEditor`, `requireAdmin` embed the role gate;
* `login`, `logout`, `createSewadar`, `updateSewadar`, `deleteSewadar`,
  `updateUser`, `deleteUser` embed the route handlers of
  `routes/auth.js`, `routes/sewadar.js` and the user-management routes,
  with the database modelled as lists of rows and every `INSERT INTO
  audit_logs` modelled as appending one record.

Express semantics captured by the embedding: a middleware that sends an error
response without calling `next()` is an `Except.error`; `asyncHandler` routes a
thrown error to the global error handler, which maps an `AppError` to its own
status/message and any other error to a 500 "Internal server error" response.
-/

/-- A row of the `users` table (the credential store). -/
structure User where
  id : String
  email : String
  password : String
  firstName : String
  lastName : String
  role : String
  isActive : Bool
  deriving DecidableEq, Repr

/-- A row of the `sewadars` table. -/
structure Sewadar where
  id : String
  firstName : Option String
  lastName : Option String
  age : Option Int
  verificationId : Option String
  verificationType : Option String
  naamdanStatus : Bool
  naamdanId : Option String
  badgeId : Option String
  createdBy : String
  deriving DecidableEq, Repr

/-- A row of the append-only `audit_logs` table. -/
structure AuditLog where
  id : String
  action : String
  userId : String
  entity : String
  entityId : Option String
  details : String
  deriving DecidableEq, Repr

/-- The relational store: the three tables the core touches. -/
structure Db where
  users : List User
  sewadars : List Sewadar
  auditLogs : List AuditLog
  deriving DecidableEq, Repr

/-- An HTTP reply: `ok` is a `success: true` JSON body, `err` a
`success: false` one; both carry the status code and the message field. -/
inductive Response where
  | ok (status : Nat) (message : String)
  | err (status : Nat) (message : String)
  deriving DecidableEq, Repr

/-- The claims payload signed into a token at login:
`{ userId: user.id, email: user.email, role: user.role }`. -/
structure Claims where
  userId : String
  email : String
  role : String
  deriving DecidableEq, Repr

/-- The identity the middleware attaches to the request context (`req.user`):
id, email and role from the token claims, names from the live store row. -/
structure ReqUser where
  userId : String
  email : String
  role : String
  firstName : String
  lastName : String
  deriving DecidableEq, Repr

/-- Failure causes of the external `jsonwebtoken.verify`:
`JsonWebTokenError` for a bad signature or undecodable token,
`TokenExpiredError` for an expired one. -/
inductive JwtError where
  | malformed
  | invalidSignature
  | tokenExpired
  deriving DecidableEq, Repr

/-- A decoded signed token: its claims, its `exp` timestamp, and the secret
it was signed with (the signature matches iff this equals the verifying
secret). -/
structure SignedToken where
  claims : Claims
  exp : Nat
  signedWith : String
  deriving DecidableEq, Repr

/-- `jsonwebtoken.verify` on a decodable token: rejects a wrong signature
first, then rejects when the clock has reached `exp`, else returns the
embedded claims unchanged (no store lookups). -/
def jwtVerify (secret : String) (now : Nat) (t : SignedToken) :
    Except JwtError Claims :=
  if t.signedWith != secret then Except.error JwtError.invalidSignature
  else if t.exp ≤ now then Except.error JwtError.tokenExpired
  else Except.ok t.claims

/-- Lift `jwtVerify` to token strings: `env` says which strings decode to
which signed token; anything else fails as malformed. -/
def verifyWith (env : String → Option SignedToken) (secret : String)
    (now : Nat) (s : String) : Except JwtError Claims :=
  match env s with
  | none => Except.error JwtError.malformed
  | some t => jwtVerify secret now t

/-- `SELECT * FROM users WHERE id = ? AND "isActive" = true`, first row. -/
def findActiveById (users : List User) (uid : String) : Option User :=
  (users.filter (fun u => u.id == uid && u.isActive)).head?

/-- `SELECT * FROM users WHERE email = ? AND "isActive" = true`, first row. -/
def findActiveByEmail (users : List User) (email : String) : Option User :=
  (users.filter (fun u => u.email == email && u.isActive)).head?

/-- `SELECT * FROM users WHERE id = ?`, first row. -/
def findUser (db : Db) (uid : String) : Option User :=
  (db.users.filter (fun u => u.id == uid)).head?

/-- `SELECT * FROM sewadars WHERE id = ?`, first row. -/
def findSewadar (db : Db) (sid : String) : Option Sewadar :=
  (db.sewadars.filter (fun s => s.id == sid)).head?

/-- `SELECT COUNT(*) FROM sewadars WHERE createdBy = ?`. -/
def countSewadarsBy (db : Db) (uid : String) : Nat :=
  (db.sewadars.filter (fun s => s.createdBy == uid)).length

/-- JS `String.prototype.split` with a one-character separator: splits at
every occurrence, keeping empty pieces (`"".split(c)` is `[""]`). -/
def splitOnChar (c : Char) (s : List Char) : List (List Char) :=
  match s with
  | [] => [[]]
  | x :: xs =>
    let rest := splitOnChar c xs
    if x == c then [] :: rest
    else
      match rest with
      | [] => [[x]]
      | r :: rs => (x :: r) :: rs

/-- Lines 213-256 of the middleware: header presence, `Bearer` scheme with a
single space, non-empty token, three dot-separated segments.  Every rejection
is a 401 sent before `jwt.verify` is reached. -/
def checkAuthHeader (authHeader : Option String) : Except Response String :=
  match authHeader with
  | none => Except.error (Response.err 401 "Access token required")
  | some h =>
    if h == "" then Except.error (Response.err 401 "Access token required")
    else
      let parts := splitOnChar ' ' h.data
      if parts.length != 2 || parts.getD 0 [] != "Bearer".data then
        Except.error
          (Response.err 401 "Invalid authorization header format. Use: Bearer <token>")
      else
        let token := parts.getD 1 []
        if token == [] then
          Except.error (Response.err 401 "Access token required")
        else if (splitOnChar '.' token).length != 3 then
          Except.error (Response.err 401 "Invalid token format")
        else Except.ok (String.mk token)

/-- The `jwt.verify` callback body (lines 258-293): any verification error
becomes 403 "Invalid or expired token"; on success the subject is re-fetched
from the live store requiring `isActive`, missing or inactive becomes
403 "User account not found or deactivated"; otherwise `req.user` is built
from the claims (id, email, role) and the store row (names). -/
def resolveUser (users : List User) (vr : Except JwtError Claims) :
    Except Response ReqUser :=
  match vr with
  | Except.error _ => Except.error (Response.err 403 "Invalid or expired token")
  | Except.ok c =>
    match findActiveById users c.userId with
    | none =>
      Except.error (Response.err 403 "User account not found or deactivated")
    | some dbUser =>
      Except.ok
        { userId := c.userId, email := c.email, role := c.role,
          firstName := dbUser.firstName, lastName := dbUser.lastName }

/-- The whole `authenticateToken` middleware, parameterised by the token
verification function it delegates to (`jwt.verify` with the server secret).
`Except.error r` means the response `r` was sent and `next()` never ran. -/
def authenticateToken (verify : String → Except JwtError Claims)
    (users : List User) (authHeader : Option String) :
    Except Response ReqUser :=
  match checkAuthHeader authHeader with
  | Except.error r => Except.error r
  | Except.ok token => resolveUser users (verify token)

/-- `requireRole(roles)`: 401 when authentication has not run, 403
"Insufficient permissions" when the attached role is not in the allowed set,
else pass through. -/
def requireRole (roles : List String) (user : Option ReqUser) :
    Except Response ReqUser :=
  match user with
  | none => Except.error (Response.err 401 "Authentication required")
  | some u =>
    if roles.contains u.role then Except.ok u
    else Except.error (Response.err 403 "Insufficient permissions")

/-- `requireEditor = requireRole(['ADMIN', 'EDITOR'])`. -/
def requireEditor : Option ReqUser → Except Response ReqUser :=
  requireRole ["ADMIN", "EDITOR"]

/-- `requireAdmin = requireRole(['ADMIN'])`. -/
def requireAdmin : Option ReqUser → Except Response ReqUser :=
  requireRole ["ADMIN"]

/-- The header shapes the middleware turns away before any verification:
absent, empty, not exactly `Bearer` + one space + token, empty token, or a
token without exactly three dot-separated segments. -/
def malformedAuthHeader (authHeader : Option String) : Bool :=
  match authHeader with
  | none => true
  | some h =>
    h == "" ||
    (let parts := splitOnChar ' ' h.data
     parts.length != 2 || parts.getD 0 [] != "Bearer".data ||
     parts.getD 1 [] == [] ||
     ((splitOnChar '.' (parts.getD 1 [])).length != 3))

/-- JS `field || null`: an absent or empty string becomes SQL NULL. -/
def presentOr (o : Option String) : Option String :=
  match o with
  | some s => if s == "" then none else some s
  | none => none

/-- The request body of the sewadar create/update routes after
`mapSewadarFields`.  `createdBy` models a client-supplied field: the handlers
never read it (it is absent from both the insert's destructuring, which sets
`createdBy: req.user.userId`, and the update's `fieldMap`). -/
structure SewadarBody where
  firstName : Option String
  lastName : Option String
  age : Option Int
  verificationId : Option String
  verificationType : Option String
  naamdanStatus : Option Bool
  naamdanId : Option String
  badgeId : Option String
  createdBy : Option String
  deriving DecidableEq, Repr

/-- `POST /sewadars` (after `authenticateToken`, `requireEditor`,
validation): inserts the row with `createdBy: req.user.userId`, then inserts
exactly one `CREATE_SEWADAR` audit row with `userid: req.user.userId`, then
replies 201. -/
def createSewadar (u : ReqUser) (body : SewadarBody) (db : Db)
    (sewadarId auditId : String) : Db × Response :=
  let row : Sewadar :=
    { id := sewadarId,
      firstName := presentOr body.firstName,
      lastName := presentOr body.lastName,
      age := body.age,
      verificationId := presentOr body.verificationId,
      verificationType := presentOr body.verificationType,
      naamdanStatus := body.naamdanStatus.getD false,
      naamdanId := presentOr body.naamdanId,
      badgeId := presentOr body.badgeId,
      createdBy := u.userId }
  let log : AuditLog :=
    { id := auditId, action := "CREATE_SEWADAR", userId := u.userId,
      entity := "SEWADAR", entityId := some sewadarId,
      details := "Created sewadar: " ++ (body.firstName.getD "") ++ " "
        ++ (body.lastName.getD "") }
  ({ db with sewadars := db.sewadars ++ [row],
             auditLogs := db.auditLogs ++ [log] },
   Response.ok 201 "Sewadar created successfully")

/-- How many body keys survive the update route's `fieldMap` filter. -/
def countPresentSewadarFields (b : SewadarBody) : Nat :=
  (if b.firstName.isSome then 1 else 0) + (if b.lastName.isSome then 1 else 0)
  + (if b.age.isSome then 1 else 0)
  + (if b.verificationId.isSome then 1 else 0)
  + (if b.verificationType.isSome then 1 else 0)
  + (if b.naamdanStatus.isSome then 1 else 0)
  + (if b.naamdanId.isSome then 1 else 0)
  + (if b.badgeId.isSome then 1 else 0)

/-- The update route's dynamic SET clause: each present body field overwrites
the row's column (empty strings coerced to NULL as in the source). -/
def applySewadarUpdates (s : Sewadar) (b : SewadarBody) : Sewadar :=
  { s with
    firstName := if b.firstName.isSome then presentOr b.firstName else s.firstName,
    lastName := if b.lastName.isSome then presentOr b.lastName else s.lastName,
    age := if b.age.isSome then b.age else s.age,
    verificationId :=
      if b.verificationId.isSome then presentOr b.verificationId else s.verificationId,
    verificationType :=
      if b.verificationType.isSome then presentOr b.verificationType else s.verificationType,
    naamdanStatus := b.naamdanStatus.getD s.naamdanStatus,
    naamdanId := if b.naamdanId.isSome then presentOr b.naamdanId else s.naamdanId,
    badgeId := if b.badgeId.isSome then presentOr b.badgeId else s.badgeId }

/-- `PUT /sewadars/:id`: 404 when the row is missing, 400 when no updatable
field is present, else apply the SET clause, insert exactly one
`UPDATE_SEWADAR` audit row with `userid: req.user.userId`, reply 200. -/
def updateSewadar (u : ReqUser) (db : Db) (sid : String) (body : SewadarBody)
    (auditId : String) : Db × Response :=
  match findSewadar db sid with
  | none => (db, Response.err 404 "Sewadar not found")
  | some existing =>
    if countPresentSewadarFields body == 0 then
      (db, Response.err 400 "No valid fields provided for update")
    else
      let log : AuditLog :=
        { id := auditId, action := "UPDATE_SEWADAR", userId := u.userId,
          entity := "SEWADAR", entityId := some sid,
          details := "Updated sewadar: " ++ (existing.firstName.getD "")
            ++ " " ++ (existing.lastName.getD "") }
      ({ db with
          sewadars := db.sewadars.map
            (fun s => if s.id == sid then applySewadarUpdates s body else s),
          auditLogs := db.auditLogs ++ [log] },
       Response.ok 200 "Sewadar updated successfully")

/-- `DELETE /sewadars/:id`: 404 when the row is missing; else the DELETE is
applied, then one `DELETE_SEWADAR` audit row is inserted.  `auditOk = false`
models the audit insert throwing: the DELETE has already run and is not rolled
back, the thrown error travels through `asyncHandler`'s `.catch(next)` to the
global error handler, which answers 500 "Internal server error" - the success
JSON is never sent. -/
def deleteSewadar (u : ReqUser) (db : Db) (sid auditId : String)
    (auditOk : Bool) : Db × Response :=
  match findSewadar db sid with
  | none => (db, Response.err 404 "Sewadar not found")
  | some existing =>
    let db1 : Db :=
      { db with sewadars := db.sewadars.filter (fun s => !(s.id == sid)) }
    if auditOk then
      let log : AuditLog :=
        { id := auditId, action := "DELETE_SEWADAR", userId := u.userId,
          entity := "SEWADAR", entityId := some sid,
          details := "Deleted sewadar: " ++ (existing.firstName.getD "")
            ++ " " ++ (existing.lastName.getD "") }
      ({ db1 with auditLogs := db1.auditLogs ++ [log] },
       Response.ok 200 "Sewadar deleted successfully")
    else
      (db1, Response.err 500 "Internal server error")

/-- `POST /auth/login`: the user is looked up by email with `isActive = true`
in the same query; a missing row and a failing password comparison raise the
identical `AppError('Invalid email or password', 401)`; a missing server
secret is a 500; on success a token is signed and exactly one LOGIN audit row
keyed to `user.id` is inserted.  `check` stands for `bcrypt.compare`. -/
def login (check : String → String → Bool) (secretSet : Bool) (db : Db)
    (email password auditId : String) : Db × Response :=
  match findActiveByEmail db.users email with
  | none => (db, Response.err 401 "Invalid email or password")
  | some user =>
    if !(check password user.password) then
      (db, Response.err 401 "Invalid email or password")
    else if !secretSet then
      (db, Response.err 500 "Server configuration error")
    else
      let log : AuditLog :=
        { id := auditId, action := "LOGIN", userId := user.id,
          entity := "USER", entityId := some user.id,
          details := "User logged in" }
      ({ db with auditLogs := db.auditLogs ++ [log] },
       Response.ok 200 "Login successful")

/-- `POST /auth/logout` (after `authenticateToken`): audit-only - exactly
one LOGOUT row keyed to `req.user.userId`, no other state change. -/
def logout (u : ReqUser) (db : Db) (auditId : String) : Db × Response :=
  let log : AuditLog :=
    { id := auditId, action := "LOGOUT", userId := u.userId,
      entity := "USER", entityId := some u.userId,
      details := "User logged out" }
  ({ db with auditLogs := db.auditLogs ++ [log] },
   Response.ok 200 "Logout successful")

/-- The request body of `PUT /users/:id` after validation. -/
structure UserUpdateBody where
  firstName : Option String
  lastName : Option String
  role : Option String
  isActive : Option Bool
  deriving DecidableEq, Repr

/-- How many body keys survive the user-update route's `fieldMap` filter. -/
def countPresentUserFields (b : UserUpdateBody) : Nat :=
  (if b.firstName.isSome then 1 else 0) + (if b.lastName.isSome then 1 else 0)
  + (if b.role.isSome then 1 else 0) + (if b.isActive.isSome then 1 else 0)

/-- The user-update route's dynamic SET clause. -/
def applyUserUpdates (u : User) (b : UserUpdateBody) : User :=
  { u with
    firstName := b.firstName.getD u.firstName,
    lastName := b.lastName.getD u.lastName,
    role := b.role.getD u.role,
    isActive := b.isActive.getD u.isActive }

/-- `PUT /users/:id` (admin-gated): 404 when missing; 400
"Cannot deactivate your own account" when the target is the requester and the
body has `isActive === false`; 400 when no updatable field is present; else
apply the SET clause, insert one `UPDATE_USER` audit row, reply 200. -/
def updateUser (u : ReqUser) (db : Db) (uid : String) (body : UserUpdateBody)
    (auditId : String) : Db × Response :=
  match findUser db uid with
  | none => (db, Response.err 404 "User not found")
  | some existing =>
    if uid == u.userId && body.isActive == some false then
      (db, Response.err 400 "Cannot deactivate your own account")
    else if countPresentUserFields body == 0 then
      (db, Response.err 400 "No valid fields provided for update")
    else
      let log : AuditLog :=
        { id := auditId, action := "UPDATE_USER", userId := u.userId,
          entity := "USER", entityId := some uid,
          details := "Updated user: " ++ existing.email }
      ({ db with
          users := db.users.map
            (fun x => if x.id == uid then applyUserUpdates x body else x),
          auditLogs := db.auditLogs ++ [log] },
       Response.ok 200 "User updated successfully")

/-- `DELETE /users/:id` (admin-gated): 404 when missing; 400
"Cannot delete your own account" when the target is the requester; 400 when
the target has authored sewadar rows (`COUNT(*) ... createdBy = id > 0`);
else delete the row, insert one `DELETE_USER` audit row, reply 200. -/
def deleteUser (u : ReqUser) (db : Db) (uid auditId : String) :
    Db × Response :=
  match findUser db uid with
  | none => (db, Response.err 404 "User not found")
  | some existing =>
    if uid == u.userId then
      (db, Response.err 400 "Cannot delete your own account")
    else if 0 < countSewadarsBy db uid then
      (db, Response.err 400
        ("Cannot delete user who has created " ++ toString (countSewadarsBy db uid)
          ++ " sewadar records. Please reassign or delete the records first."))
    else
      let log : AuditLog :=
        { id := auditId, action := "DELETE_USER", userId := u.userId,
          entity := "USER", entityId := some uid,
          details := "Deleted user: " ++ existing.email }
      ({ db with users := db.users.filter (fun x => !(x.id == uid)),
                 auditLogs := db.auditLogs ++ [log] },
       Response.ok 200 "User deleted successfully")

/-! ## Theorems -/

theorem authenticateToken_error_of_header_error
    (verify : String → Except JwtError Claims) (users : List User)
    (authHeader : Option String) (r : Response)
    (h : checkAuthHeader authHeader = Except.error r) :
    authenticateToken verify users authHeader = Except.error r := by
  unfold authenticateToken
  rw [h]

/-- C3: a request whose Authorization header is absent, not exactly two
space-separated parts with literal scheme "Bearer", carries an empty token,
or carries a token that is not three dot-separated segments, is rejected with
status 401, and the token verification function is never consulted: the
middleware's outcome is the same error for every possible `verify`, fixed
before `verify` could run, so no signature or expiry check is performed and
the handler is never reached. -/
theorem malformed_header_rejected_with_401 (authHeader : Option String)
    (hm : malformedAuthHeader authHeader = true) :
    ∃ msg, checkAuthHeader authHeader = Except.error (Response.err 401 msg) ∧
      ∀ (verify : String → Except JwtError Claims) (users : List User),
        authenticateToken verify users authHeader =
          Except.error (Response.err 401 msg) := by
  have hch : ∃ msg,
      checkAuthHeader authHeader = Except.error (Response.err 401 msg) := by
    cases authHeader with
    | none => exact ⟨"Access token required", rfl⟩
    | some h =>
      simp only [checkAuthHeader]
      split_ifs with h1 h2 h3 h4
      · exact ⟨"Access token required", rfl⟩
      · exact ⟨"Invalid authorization header format. Use: Bearer <token>", rfl⟩
      · exact ⟨"Access token required", rfl⟩
      · exact ⟨"Invalid token format", rfl⟩
      · exfalso
        simp only [malformedAuthHeader, h1, h2, h3, h4] at hm
        simp at hm
  obtain ⟨msg, hmsg⟩ := hch
  exact ⟨msg, hmsg, fun verify users =>
    authenticateToken_error_of_header_error verify users authHeader _ hmsg⟩

/-- Witness for C3 at the concrete header "Token abc.def.ghi" (wrong
scheme): a 401 independent of the verification function. -/
theorem malformed_header_rejected_with_401_witness :
    malformedAuthHeader (some "Token abc.def.ghi") = true ∧
    ∃ msg, checkAuthHeader (some "Token abc.def.ghi") =
        Except.error (Response.err 401 msg) ∧
      ∀ (verify : String → Except JwtError Claims) (users : List User),
        authenticateToken verify users (some "Token abc.def.ghi") =
          Except.error (Response.err 401 msg) :=
  ⟨by decide, malformed_header_rejected_with_401 (some "Token abc.def.ghi") (by decide)⟩

/-- C2: when a well-formed header carries a token that verifies successfully
but whose subject has no row in the credential store with `isActive = true`
(missing or deactivated), the middleware answers
403 "User account not found or deactivated".  The `Except.error` outcome
means `next()` is never called, so the request handler never runs. -/
theorem inactive_subject_rejected_with_403
    (verify : String → Except JwtError Claims) (users : List User)
    (authHeader : Option String) (tok : String) (c : Claims)
    (hh : checkAuthHeader authHeader = Except.ok tok)
    (hv : verify tok = Except.ok c)
    (hi : ∀ u ∈ users, u.id = c.userId → u.isActive = false) :
    authenticateToken verify users authHeader =
      Except.error (Response.err 403 "User account not found or deactivated") := by
  have hfind : findActiveById users c.userId = none := by
    unfold findActiveById
    have hnil : users.filter (fun u => u.id == c.userId && u.isActive) = [] := by
      refine List.filter_eq_nil_iff.mpr ?_
      intro u hu
      simp only [Bool.and_eq_true, beq_iff_eq, not_and]
      intro hid hact
      rw [hi u hu hid] at hact
      exact Bool.false_ne_true hact
    rw [hnil]
    rfl
  simp only [authenticateToken, hh]
  simp only [resolveUser, hv, hfind]

/-- A seeded administrator row, used as a concrete fixture. -/
def adminUser : User :=
  { id := "u1", email := "admin@rssb.org", password := "admin123",
    firstName := "Admin", lastName := "User", role := "ADMIN", isActive := true }

/-- A seeded editor row, used as a concrete fixture. -/
def editorUser : User :=
  { id := "u2", email := "editor@rssb.org", password := "editor123",
    firstName := "Editor", lastName := "User", role := "EDITOR", isActive := true }

/-- A deactivated viewer row, used as a concrete fixture. -/
def inactiveViewer : User :=
  { id := "u3", email := "viewer@rssb.org", password := "viewer123",
    firstName := "Viewer", lastName := "User", role := "VIEWER", isActive := false }

/-- A correctly signed, unexpired token whose subject is the deactivated
viewer. -/
def tokenForInactive : SignedToken :=
  { claims := { userId := "u3", email := "viewer@rssb.org", role := "VIEWER" },
    exp := 1000, signedWith := "topsecret" }

/-- A decoding environment mapping one token string to `tokenForInactive`. -/
def envForInactive : String → Option SignedToken := fun s =>
  if s == "aaa.bbb.ccc" then some tokenForInactive else none

/-- Witness for C2: the deactivated viewer's correctly signed, unexpired
token is turned away with 403. -/
theorem inactive_subject_rejected_with_403_witness :
    authenticateToken (verifyWith envForInactive "topsecret" 10)
        [adminUser, editorUser, inactiveViewer] (some "Bearer aaa.bbb.ccc") =
      Except.error (Response.err 403 "User account not found or deactivated") :=
  inactive_subject_rejected_with_403
    (verifyWith envForInactive "topsecret" 10)
    [adminUser, editorUser, inactiveViewer] (some "Bearer aaa.bbb.ccc")
    "aaa.bbb.ccc"
    { userId := "u3", email := "viewer@rssb.org", role := "VIEWER" }
    rfl rfl (by decide)

/-- C1 (amended): for a well-formed header whose token decodes, is signed
with the server secret and is unexpired, and whose subject has an
`isActive = true` row in the store, authentication succeeds and the attached
identity takes `userId`, `email` and `role` from the TOKEN CLAIMS (so the
role may be a stale pre-role-change snapshot) while `firstName` and
`lastName` come from the live store row. -/
theorem valid_token_attaches_claim_role
    (env : String → Option SignedToken) (secret : String) (now : Nat)
    (users : List User) (authHeader : Option String) (tok : String)
    (t : SignedToken) (dbUser : User)
    (hh : checkAuthHeader authHeader = Except.ok tok)
    (henv : env tok = some t)
    (hsig : t.signedWith = secret)
    (hexp : now < t.exp)
    (hfind : findActiveById users t.claims.userId = some dbUser) :
    authenticateToken (verifyWith env secret now) users authHeader =
      Except.ok
        { userId := t.claims.userId, email := t.claims.email,
          role := t.claims.role, firstName := dbUser.firstName,
          lastName := dbUser.lastName } := by
  have hv : verifyWith env secret now tok = Except.ok t.claims := by
    simp only [verifyWith, henv, jwtVerify, hsig, bne_self_eq_false,
      Bool.false_eq_true, if_false]
    rw [if_neg (by omega)]
  simp only [authenticateToken, hh]
  simp only [resolveUser, hv, hfind]

/-- The store row of the subject of `staleRoleToken` AFTER an administrator
promoted the account from EDITOR to ADMIN: the stored role is "ADMIN". -/
def promotedUser : User :=
  { id := "u9", email := "promoted@rssb.org", password := "pw",
    firstName := "Pro", lastName := "Moted", role := "ADMIN", isActive := true }

/-- A token issued BEFORE the promotion: its role claim is still "EDITOR". -/
def staleRoleToken : SignedToken :=
  { claims := { userId := "u9", email := "promoted@rssb.org", role := "EDITOR" },
    exp := 1000, signedWith := "topsecret" }

/-- A decoding environment mapping one token string to `staleRoleToken`. -/
def envForStale : String → Option SignedToken := fun s =>
  if s == "sss.ttt.uuu" then some staleRoleToken else none

/-- The identity the middleware attaches for `staleRoleToken`. -/
def staleReqUser : ReqUser :=
  { userId := "u9", email := "promoted@rssb.org", role := "EDITOR",
    firstName := "Pro", lastName := "Moted" }

/-- Counterexample to C1 as stated: the subject is active, the token is
valid, authentication succeeds - but the role attached to the request
context is the stale "EDITOR" claim from the token, not the "ADMIN" role
currently stored in the credential store. -/
theorem stale_claim_role_attached_not_stored_role :
    authenticateToken (verifyWith envForStale "topsecret" 10) [promotedUser]
        (some "Bearer sss.ttt.uuu") = Except.ok staleReqUser ∧
    findActiveById [promotedUser] "u9" = some promotedUser ∧
    promotedUser.role = "ADMIN" ∧
    staleReqUser.role ≠ promotedUser.role :=
  ⟨rfl, rfl, rfl, by decide⟩

/-- Witness for C1 (amended) at a concrete valid token and active subject. -/
theorem valid_token_attaches_claim_role_witness :
    authenticateToken (verifyWith envForStale "topsecret" 10) [promotedUser]
        (some "Bearer sss.ttt.uuu") =
      Except.ok
        { userId := "u9", email := "promoted@rssb.org", role := "EDITOR",
          firstName := "Pro", lastName := "Moted" } :=
  valid_token_attaches_claim_role envForStale "topsecret" 10 [promotedUser]
    (some "Bearer sss.ttt.uuu") "sss.ttt.uuu" staleRoleToken promotedUser
    rfl rfl rfl (by decide) rfl

/-- C6 (amended): at the token-service level `verify` produces distinct
causes - `TokenExpiredError` for a token whose expiry has passed and
`JsonWebTokenError` (invalid signature) for a bad signature - but the gate's
callback maps EVERY verification error to one and the same
403 "Invalid or expired token" response, so the two causes are not
distinguishable in the gate's result, only in the verify result and the
server-side log. -/
theorem verify_causes_distinct_but_gate_collapses
    (secret : String) (now : Nat) (t1 t2 : SignedToken)
    (users : List User) (e1 e2 : JwtError)
    (h1 : t1.signedWith ≠ secret)
    (h2 : t2.signedWith = secret) (h2e : t2.exp ≤ now) :
    jwtVerify secret now t1 = Except.error JwtError.invalidSignature ∧
    jwtVerify secret now t2 = Except.error JwtError.tokenExpired ∧
    JwtError.tokenExpired ≠ JwtError.invalidSignature ∧
    resolveUser users (Except.error e1) = resolveUser users (Except.error e2) ∧
    resolveUser users (Except.error e1) =
      Except.error (Response.err 403 "Invalid or expired token") := by
  refine ⟨?_, ?_, by decide, rfl, rfl⟩
  · simp only [jwtVerify, bne_iff_ne, ne_eq, h1, not_false_eq_true, if_true]
  · simp only [jwtVerify, h2, bne_self_eq_false, Bool.false_eq_true, if_false,
      h2e, if_true]

/-- An expired token, correctly signed. -/
def expiredToken : SignedToken :=
  { claims := { userId := "u1", email := "admin@rssb.org", role := "ADMIN" },
    exp := 5, signedWith := "topsecret" }

/-- An unexpired token signed with the wrong secret. -/
def badSigToken : SignedToken :=
  { claims := { userId := "u1", email := "admin@rssb.org", role := "ADMIN" },
    exp := 1000, signedWith := "wrongsecret" }

/-- A decoding environment holding both failing tokens. -/
def envTwoFailures : String → Option SignedToken := fun s =>
  if s == "ee.ee.ee" then some expiredToken
  else if s == "ww.ww.ww" then some badSigToken
  else none

/-- Counterexample to C6 as stated: the two failure causes are distinct at
the verify level, yet the gate's results for the expired token and for the
badly signed token are IDENTICAL responses - nothing in the gate's result
distinguishes them. -/
theorem gate_result_does_not_distinguish_causes :
    jwtVerify "topsecret" 10 expiredToken = Except.error JwtError.tokenExpired ∧
    jwtVerify "topsecret" 10 badSigToken = Except.error JwtError.invalidSignature ∧
    authenticateToken (verifyWith envTwoFailures "topsecret" 10) [adminUser]
        (some "Bearer ee.ee.ee") =
      authenticateToken (verifyWith envTwoFailures "topsecret" 10) [adminUser]
        (some "Bearer ww.ww.ww") ∧
    authenticateToken (verifyWith envTwoFailures "topsecret" 10) [adminUser]
        (some "Bearer ee.ee.ee") =
      Except.error (Response.err 403 "Invalid or expired token") :=
  ⟨rfl, rfl, rfl, rfl⟩

/-- Witness for C6 (amended) at the two concrete failing tokens. -/
theorem verify_causes_distinct_but_gate_collapses_witness :
    jwtVerify "topsecret" 10 badSigToken = Except.error JwtError.invalidSignature ∧
    jwtVerify "topsecret" 10 expiredToken = Except.error JwtError.tokenExpired ∧
    JwtError.tokenExpired ≠ JwtError.invalidSignature ∧
    resolveUser [adminUser] (Except.error JwtError.invalidSignature) =
      resolveUser [adminUser] (Except.error JwtError.tokenExpired) ∧
    resolveUser [adminUser] (Except.error JwtError.invalidSignature) =
      Except.error (Response.err 403 "Invalid or expired token") :=
  verify_causes_distinct_but_gate_collapses "topsecret" 10 badSigToken
    expiredToken [adminUser] JwtError.invalidSignature JwtError.tokenExpired
    (by decide) rfl (by decide)

/-- C7: after authentication, `requireRole(allowedRoles)` rejects with
403 "Insufficient permissions" exactly when the attached role is not a member
of the allowed set, and passes the request through otherwise; the two
predefined unions are `requireEditor` = {ADMIN, EDITOR} and
`requireAdmin` = {ADMIN}.  Membership is all-or-nothing: the outcome is
fully determined by `u.role ∈ roles`. -/
theorem role_gate_membership (u : ReqUser) (roles : List String) :
    (u.role ∉ roles → requireRole roles (some u) =
        Except.error (Response.err 403 "Insufficient permissions")) ∧
    (u.role ∈ roles → requireRole roles (some u) = Except.ok u) ∧
    requireEditor = requireRole ["ADMIN", "EDITOR"] ∧
    requireAdmin = requireRole ["ADMIN"] := by
  refine ⟨?_, ?_, rfl, rfl⟩
  · intro hnot
    simp only [requireRole]
    rw [if_neg]
    intro hc
    exact hnot (List.elem_iff.mp hc)
  · intro hmem
    simp only [requireRole]
    rw [if_pos]
    exact List.elem_iff.mpr hmem

/-- The identity attached for the seeded editor account. -/
def editorReqUser : ReqUser :=
  { userId := "u2", email := "editor@rssb.org", role := "EDITOR",
    firstName := "Editor", lastName := "User" }

/-- Witness for C7: the editor passes the editor union and is refused by the
admin union with 403 "Insufficient permissions". -/
theorem role_gate_membership_witness :
    requireRole ["ADMIN"] (some editorReqUser) =
      Except.error (Response.err 403 "Insufficient permissions") ∧
    requireRole ["ADMIN", "EDITOR"] (some editorReqUser) =
      Except.ok editorReqUser :=
  ⟨(role_gate_membership editorReqUser ["ADMIN"]).1 (by decide),
   (role_gate_membership editorReqUser ["ADMIN", "EDITOR"]).2.1 (by decide)⟩

/-- C4: every successful sewadar CREATE / UPDATE / DELETE inserts exactly one
audit record (the logs table grows by exactly one appended row), whose
`userid` is the authenticated requester's id from the request context - for
EVERY request body, including bodies carrying a conflicting client-supplied
`createdBy`, which the handlers never read (the extra conjunct shows the
audit trail is identical whatever `createdBy` the client sends) - and LOGIN
and LOGOUT each insert exactly one record keyed to the session subject's id. -/
theorem mutations_audited_once_with_requester_id
    (u : ReqUser) (db : Db) (body : SewadarBody)
    (sid aid sid2 aid2 sid3 aid3 aidL aidO : String) (s2 s3 : Sewadar)
    (check : String → String → Bool) (em pw : String) (usr : User)
    (h2 : findSewadar db sid2 = some s2)
    (h2b : countPresentSewadarFields body ≠ 0)
    (h3 : findSewadar db sid3 = some s3)
    (hL : findActiveByEmail db.users em = some usr)
    (hLp : check pw usr.password = true) :
    (∃ l, (createSewadar u body db sid aid).1.auditLogs = db.auditLogs ++ [l] ∧
      l.userId = u.userId ∧ l.action = "CREATE_SEWADAR" ∧ l.entityId = some sid) ∧
    (∀ override : String,
      (createSewadar u { body with createdBy := some override } db sid aid).1.auditLogs =
        (createSewadar u body db sid aid).1.auditLogs) ∧
    (∃ l, (updateSewadar u db sid2 body aid2).1.auditLogs = db.auditLogs ++ [l] ∧
      l.userId = u.userId ∧ l.action = "UPDATE_SEWADAR" ∧ l.entityId = some sid2) ∧
    (∃ l, (deleteSewadar u db sid3 aid3 true).1.auditLogs = db.auditLogs ++ [l] ∧
      l.userId = u.userId ∧ l.action = "DELETE_SEWADAR" ∧ l.entityId = some sid3) ∧
    (∃ l, (login check true db em pw aidL).1.auditLogs = db.auditLogs ++ [l] ∧
      l.userId = usr.id ∧ l.action = "LOGIN" ∧ l.entityId = some usr.id) ∧
    (∃ l, (logout u db aidO).1.auditLogs = db.auditLogs ++ [l] ∧
      l.userId = u.userId ∧ l.action = "LOGOUT" ∧ l.entityId = some u.userId) := by
  have hbeq : (countPresentSewadarFields body == 0) = false := by
    simpa using h2b
  refine ⟨⟨_, rfl, rfl, rfl, rfl⟩, fun override => rfl, ?_, ?_, ?_,
    ⟨_, rfl, rfl, rfl, rfl⟩⟩
  · simp only [updateSewadar, h2, hbeq, Bool.false_eq_true, if_false]
    exact ⟨_, rfl, rfl, rfl, rfl⟩
  · simp only [deleteSewadar, h3, if_true]
    exact ⟨_, rfl, rfl, rfl, rfl⟩
  · simp only [login, hL, hLp, Bool.not_true, Bool.false_eq_true, if_false]
    exact ⟨_, rfl, rfl, rfl, rfl⟩

/-- The identity attached for the seeded administrator account. -/
def adminReqUser : ReqUser :=
  { userId := "u1", email := "admin@rssb.org", role := "ADMIN",
    firstName := "Admin", lastName := "User" }

/-- A sewadar row created by the editor, used as a concrete fixture. -/
def demoSewadar : Sewadar :=
  { id := "s1", firstName := some "Jane", lastName := some "Doe",
    age := some 30, verificationId := some "V1",
    verificationType := some "AADHAR", naamdanStatus := false,
    naamdanId := none, badgeId := none, createdBy := "u2" }

/-- A concrete store: the three seeded accounts and one sewadar row. -/
def demoDb : Db :=
  { users := [adminUser, editorUser, inactiveViewer],
    sewadars := [demoSewadar], auditLogs := [] }

/-- A concrete request body that also smuggles in a conflicting
client-supplied `createdBy` field. -/
def demoBody : SewadarBody :=
  { firstName := some "Janet", lastName := none, age := none,
    verificationId := none, verificationType := none, naamdanStatus := none,
    naamdanId := none, badgeId := none, createdBy := some "attacker" }

/-- Witness for C4 at a concrete store, body and credentials. -/
theorem mutations_audited_once_with_requester_id_witness :
    (∃ l, (createSewadar adminReqUser demoBody demoDb "s9" "a1").1.auditLogs =
        demoDb.auditLogs ++ [l] ∧
      l.userId = adminReqUser.userId ∧ l.action = "CREATE_SEWADAR" ∧
      l.entityId = some "s9") ∧
    (∀ override : String,
      (createSewadar adminReqUser { demoBody with createdBy := some override }
          demoDb "s9" "a1").1.auditLogs =
        (createSewadar adminReqUser demoBody demoDb "s9" "a1").1.auditLogs) ∧
    (∃ l, (updateSewadar adminReqUser demoDb "s1" demoBody "a2").1.auditLogs =
        demoDb.auditLogs ++ [l] ∧
      l.userId = adminReqUser.userId ∧ l.action = "UPDATE_SEWADAR" ∧
      l.entityId = some "s1") ∧
    (∃ l, (deleteSewadar adminReqUser demoDb "s1" "a3" true).1.auditLogs =
        demoDb.auditLogs ++ [l] ∧
      l.userId = adminReqUser.userId ∧ l.action = "DELETE_SEWADAR" ∧
      l.entityId = some "s1") ∧
    (∃ l, (login (fun p hsh => p == hsh) true demoDb "editor@rssb.org"
          "editor123" "a4").1.auditLogs = demoDb.auditLogs ++ [l] ∧
      l.userId = editorUser.id ∧ l.action = "LOGIN" ∧
      l.entityId = some editorUser.id) ∧
    (∃ l, (logout adminReqUser demoDb "a5").1.auditLogs =
        demoDb.auditLogs ++ [l] ∧
      l.userId = adminReqUser.userId ∧ l.action = "LOGOUT" ∧
      l.entityId = some adminReqUser.userId) :=
  mutations_audited_once_with_requester_id adminReqUser demoDb demoBody
    "s9" "a1" "s1" "a2" "s1" "a3" "a4" "a5" demoSewadar demoSewadar
    (fun p hsh => p == hsh) "editor@rssb.org" "editor123" editorUser
    rfl (by decide) rfl rfl (by decide)

/-- C5 (amended): when the business mutation of `DELETE /sewadars/:id` has
been applied and the subsequent audit-log insert fails, the mutation is NOT
rolled back (the row stays deleted, no transaction wraps the pair) and no
audit row is written - but the thrown error propagates through
`asyncHandler` to the global error handler, so the caller receives a
500 "Internal server error" response, not the success response. -/
theorem audit_failure_keeps_mutation_but_rejects_request
    (u : ReqUser) (db : Db) (sid aid : String) (s : Sewadar)
    (hs : findSewadar db sid = some s) :
    findSewadar (deleteSewadar u db sid aid false).1 sid = none ∧
    (deleteSewadar u db sid aid false).1.users = db.users ∧
    (deleteSewadar u db sid aid false).1.auditLogs = db.auditLogs ∧
    (deleteSewadar u db sid aid false).2 =
      Response.err 500 "Internal server error" := by
  simp only [deleteSewadar, hs, Bool.false_eq_true, if_false]
  refine ⟨?_, by trivial, by trivial, by trivial⟩
  simp [findSewadar, List.filter_filter, Bool.and_not_self]

/-- Counterexample to C5 as stated: at a concrete store, after the audit
insert fails the sewadar is indeed gone (mutation kept), yet the caller gets
the 500 error response and NOT the success response the claim promises. -/
theorem audit_failure_sends_error_not_success :
    (deleteSewadar adminReqUser demoDb "s1" "a7" false).2 =
      Response.err 500 "Internal server error" ∧
    (deleteSewadar adminReqUser demoDb "s1" "a7" false).2 ≠
      Response.ok 200 "Sewadar deleted successfully" ∧
    findSewadar (deleteSewadar adminReqUser demoDb "s1" "a7" false).1 "s1" =
      none :=
  ⟨rfl, by decide, rfl⟩

/-- Witness for C5 (amended) at the concrete store. -/
theorem audit_failure_keeps_mutation_but_rejects_request_witness :
    findSewadar (deleteSewadar adminReqUser demoDb "s1" "a8" false).1 "s1" =
      none ∧
    (deleteSewadar adminReqUser demoDb "s1" "a8" false).1.users =
      demoDb.users ∧
    (deleteSewadar adminReqUser demoDb "s1" "a8" false).1.auditLogs =
      demoDb.auditLogs ∧
    (deleteSewadar adminReqUser demoDb "s1" "a8" false).2 =
      Response.err 500 "Internal server error" :=
  audit_failure_keeps_mutation_but_rejects_request adminReqUser demoDb
    "s1" "a8" demoSewadar rfl

/-- C8: whenever the target of a user-deletion request has authored sewadar
rows (`COUNT(*) FROM sewadars WHERE createdBy = target > 0`), the handler
returns an error response without touching the store at all - the user row
is never deleted while dependent mutation history exists.  (Whether the
guard that fires is the 404, the self-deletion 400 or the authored-records
400, every branch reachable under the hypothesis leaves the database
unchanged.) -/
theorem author_deletion_refused (u : ReqUser) (db : Db) (uid aid : String)
    (h : 0 < countSewadarsBy db uid) :
    (deleteUser u db uid aid).1 = db ∧
    ∃ st msg, (deleteUser u db uid aid).2 = Response.err st msg := by
  unfold deleteUser
  cases hfu : findUser db uid with
  | none => exact ⟨rfl, _, _, rfl⟩
  | some existing =>
    simp only
    by_cases hself : (uid == u.userId) = true
    · simp only [hself, if_true]
      exact ⟨by trivial, _, _, by trivial⟩
    · simp only [hself, Bool.false_eq_true, if_false, if_pos h]
      exact ⟨by trivial, _, _, by trivial⟩

/-- Witness for C8: the editor has authored the demo sewadar, so the admin's
attempt to delete the editor's account is refused with the store intact. -/
theorem author_deletion_refused_witness :
    (deleteUser adminReqUser demoDb "u2" "a6").1 = demoDb ∧
    ∃ st msg, (deleteUser adminReqUser demoDb "u2" "a6").2 =
      Response.err st msg :=
  author_deletion_refused adminReqUser demoDb "u2" "a6" (by decide)

/-- C9: a failed login reveals nothing about whether the submitted email
exists: a run with an email that has no active row (unknown or deactivated
account) and a run with a known active email but a failing password
comparison both return the identical 401 "Invalid email or password"
response and leave the store untouched - the two failure causes are
indistinguishable to the caller. -/
theorem login_failures_indistinguishable
    (check : String → String → Bool) (secretSet : Bool) (db : Db)
    (e1 p1 a1 e2 p2 a2 : String) (usr : User)
    (h1 : findActiveByEmail db.users e1 = none)
    (h2 : findActiveByEmail db.users e2 = some usr)
    (h2p : check p2 usr.password = false) :
    login check secretSet db e1 p1 a1 =
      (db, Response.err 401 "Invalid email or password") ∧
    login check secretSet db e2 p2 a2 =
      (db, Response.err 401 "Invalid email or password") ∧
    login check secretSet db e1 p1 a1 = login check secretSet db e2 p2 a2 := by
  have r1 : login check secretSet db e1 p1 a1 =
      (db, Response.err 401 "Invalid email or password") := by
    simp only [login, h1]
  have r2 : login check secretSet db e2 p2 a2 =
      (db, Response.err 401 "Invalid email or password") := by
    simp only [login, h2, h2p, Bool.not_false, if_true]
  exact ⟨r1, r2, r1.trans r2.symm⟩

/-- Witness for C9: an unknown email and the editor's email with a wrong
password produce byte-identical failure results. -/
theorem login_failures_indistinguishable_witness :
    login (fun p hsh => p == hsh) true demoDb "ghost@rssb.org" "whatever" "a1" =
      (demoDb, Response.err 401 "Invalid email or password") ∧
    login (fun p hsh => p == hsh) true demoDb "editor@rssb.org" "wrongpw" "a2" =
      (demoDb, Response.err 401 "Invalid email or password") ∧
    login (fun p hsh => p == hsh) true demoDb "ghost@rssb.org" "whatever" "a1" =
      login (fun p hsh => p == hsh) true demoDb "editor@rssb.org" "wrongpw" "a2" :=
  login_failures_indistinguishable (fun p hsh => p == hsh) true demoDb
    "ghost@rssb.org" "whatever" "a1" "editor@rssb.org" "wrongpw" "a2"
    editorUser rfl rfl (by decide)

/-- C10: an administrator can never deactivate or delete their own account:
when the target id equals the requester's id, an update whose body has
`isActive === false` is refused with 400 "Cannot deactivate your own
account" and a deletion is refused with 400 "Cannot delete your own
account", the store returned unchanged in both cases. -/
theorem self_deactivation_and_deletion_guarded
    (u : ReqUser) (db : Db) (body : UserUpdateBody) (aid aid2 : String)
    (ex : User) (hex : findUser db u.userId = some ex) :
    (body.isActive = some false →
      updateUser u db u.userId body aid =
        (db, Response.err 400 "Cannot deactivate your own account")) ∧
    deleteUser u db u.userId aid2 =
      (db, Response.err 400 "Cannot delete your own account") := by
  constructor
  · intro hia
    simp only [updateUser, hex, beq_self_eq_true, hia, Bool.and_self, if_true]
  · simp only [deleteUser, hex, beq_self_eq_true, if_true]

/-- Witness for C10: the admin targeting their own row. -/
theorem self_deactivation_and_deletion_guarded_witness :
    updateUser adminReqUser demoDb "u1"
        { firstName := none, lastName := none, role := none,
          isActive := some false } "a1" =
      (demoDb, Response.err 400 "Cannot deactivate your own account") ∧
    deleteUser adminReqUser demoDb "u1" "a2" =
      (demoDb, Response.err 400 "Cannot delete your own account") :=
  ⟨(self_deactivation_and_deletion_guarded adminReqUser demoDb
      { firstName := none, lastName := none, role := none,
        isActive := some false } "a1" "a2" adminUser rfl).1 rfl,
   (self_deactivation_and_deletion_guarded adminReqUser demoDb
      { firstName := none, lastName := none, role := none,
        isActive := some false } "a1" "a2" adminUser rfl).2⟩
